import Mathlib

/-!
Verification development for the `claude-db-tools` repository: a shallow
embedding of `src/config.py`, `src/database.py`, `src/tools/query.py` and
`src/tools/sample.py`, and theorems settling the specification claims about
the connection-pool lifecycle, the resilient execution layer and the tool
entry points.

Python exceptions are embedded as values of `PyExc`; raising is embedded as
`Except.error`.  The `@contextmanager`-decorated generator `get_connection`
is embedded together with the CPython context-manager protocol it runs
under (`contextlib._GeneratorContextManager.__enter__`/`__exit__`): the
generator contains its `yield` inside a `for attempt in range(3)` loop, so
when the `with`-body raises, the exception is thrown into the generator at
the `yield`, the generator's `except Exception` clause handles it and the
loop continues; if the generator reaches a second `yield`, `__exit__`
raises `RuntimeError("generator didn't stop after throw()")`, and if the
generator returns without ever yielding, `__enter__` raises
`RuntimeError("generator didn't yield")`.  Both behaviours are part of the
embedding because they are observable behaviour of the source.

Side effects on the pool and on connections (acquire, validate, discard,
release, commit, rollback, isolation-level changes) are recorded in an
event trace.
-/

set_option autoImplicit false

/-- The Python exception classes that appear in the embedded code paths:
psycopg2's `OperationalError`, `InterfaceError`, `ProgrammingError` and
`pool.PoolError`, and the builtins `ValueError`, `RuntimeError`, `KeyError`. -/
inductive PyExcTy
  | operationalError
  | interfaceError
  | programmingError
  | poolError
  | valueError
  | runtimeError
  | keyError
  | otherError
deriving DecidableEq

/-- A raised Python exception: its class and its message (`str(e)`). -/
structure PyExc where
  ty : PyExcTy
  msg : String
deriving DecidableEq

/-- Observable state of one connection handle as seen by the validity probe
`_is_connection_valid` (src/database.py:63-75): whether `conn.closed` is
set, and which probe step (if any) raises when attempted — creating the
cursor, executing `SELECT 1`, fetching the row, closing the cursor. -/
structure ProbeConn where
  closed : Bool
  cursorErr : Option PyExc
  execErr : Option PyExc
  fetchErr : Option PyExc
  closeErr : Option PyExc
deriving DecidableEq

/-- The body of `_is_connection_valid` without its enclosing
`try/except Exception` (src/database.py:65-73): returns `false` if
`conn.closed`, otherwise runs cursor creation, `SELECT 1`, fetch and close
in order, raising at the first failing step, and returns `true` when all
steps complete. -/
def isConnValidBody (c : ProbeConn) : Except PyExc Bool :=
  if c.closed then .ok false
  else
    match c.cursorErr with
    | some e => .error e
    | none =>
      match c.execErr with
      | some e => .error e
      | none =>
        match c.fetchErr with
        | some e => .error e
        | none =>
          match c.closeErr with
          | some e => .error e
          | none => .ok true

/-- `_is_connection_valid` (src/database.py:63-75): the probe body wrapped
in `try: ... except Exception: return False`, so every raised exception is
mapped to `false` and the function is total into `Bool`. -/
def is_connection_valid (c : ProbeConn) : Bool :=
  match isConnValidBody c with
  | .ok b => b
  | .error _ => false

/-- A connection handle held by the pool: an identity plus the state its
validity probe observes. -/
structure Conn where
  cid : Nat
  probe : ProbeConn
deriving DecidableEq

/-- Pool/connection side effects recorded while executing the embedded
code.  `discarded` is `putconn(conn, close=True)` (the handle is destroyed
rather than returned); `released` is plain `putconn(conn)`; `yielded`
marks the generator reaching `yield conn`; the remaining events are
emitted by the operation bodies of `execute_query`/`execute_write`. -/
inductive Event
  | acquired (c : Conn)
  | discarded (c : Conn)
  | released (c : Conn)
  | yielded (c : Conn)
  | setIso0 (c : Conn)
  | stmtOk (c : Conn)
  | stmtFailed (c : Conn)
  | commit (c : Conn)
  | rollback (c : Conn)
deriving DecidableEq

/-- Outcome of one `_connection_pool.getconn()` call: a handle, or a raised
exception (pool exhausted, connect failure, ...). -/
inductive AcqOutcome
  | conn (c : Conn)
  | raise (e : PyExc)
deriving DecidableEq

/-- Result of running the `get_connection` generator from its current
state until it yields, raises, or returns.  Each constructor carries the
next `getconn` call index and the accumulated event trace; `yieldedAt`
also carries the attempt indices remaining after the yielding one. -/
inductive GenRes
  | yieldedAt (c : Conn) (remaining : List Nat) (ix : Nat) (tr : List Event)
  | raisedGen (e : PyExc) (ix : Nat) (tr : List Event)
  | finishedGen (ix : Nat) (tr : List Event)

/-- The `for attempt in range(max_retries)` loop of the `get_connection`
generator (src/database.py:98-130), run until it yields, raises or falls
off the end.  `attempts` is the list of remaining attempt indices (the
full loop is `[0, 1, 2]` since `max_retries = 3`).  Per iteration:
`getconn` raising is caught by the `except Exception` clause (with `conn`
still `None`, so nothing is released) and re-raised only on the last
attempt; an acquired connection failing `_is_connection_valid` is closed
and discarded via `putconn(conn, close=True)` and the loop continues; a
valid connection is yielded. -/
def genLoop (acq : Nat → AcqOutcome) : List Nat → Nat → List Event → GenRes
  | [], ix, tr => .finishedGen ix tr
  | _ :: rest, ix, tr =>
    match acq ix with
    | .raise e =>
      if rest.isEmpty then .raisedGen e (ix + 1) tr
      else genLoop acq rest (ix + 1) tr
    | .conn c =>
      if is_connection_valid c.probe then
        .yieldedAt c rest (ix + 1) (tr ++ [Event.acquired c, Event.yielded c])
      else
        genLoop acq rest (ix + 1) (tr ++ [Event.acquired c, Event.discarded c])

/-- Visible outcome of a `with get_connection() as conn:` block around a
body: the body's value, a raised exception, or — when the generator
returns while handling a body exception, turning the throw into
`StopIteration` — suppression of the body's exception (`__exit__`
returns `True`). -/
inductive WithSum (α : Type)
  | ok (v : α)
  | raised (e : PyExc)
  | suppressed

/-- Outcome, trace and next `getconn` index of one `with get_connection()`
block. -/
structure WithOut (α : Type) where
  res : WithSum α
  tr : List Event
  nextIx : Nat

/-- One `with get_connection() as conn: body(conn)` block
(src/database.py:78-130 together with CPython's
`_GeneratorContextManager`).  `__enter__` runs the generator to its first
yield; a generator that returns without yielding makes `__enter__` raise
`RuntimeError("generator didn't yield")`.  On body success, `__exit__`
resumes the generator, whose `finally` releases the connection with
`putconn(conn)`.  On body failure, the exception is thrown into the
generator at the yield: its `except Exception` clause discards the
connection with `putconn(conn, close=True)`, re-raises on the last
attempt (so the original exception propagates), and otherwise continues
the acquisition loop — if that loop yields a second connection, `__exit__`
raises `RuntimeError("generator didn't stop after throw()")` and the
generator's later `GeneratorExit` cleanup releases the second connection
via the `finally` clause; if the loop raises, that exception propagates;
if the loop falls off the end, `__exit__` sees `StopIteration` and
suppresses the body's exception. -/
def runWith {α : Type} (acq : Nat → AcqOutcome) (startIx : Nat)
    (body : Conn → (Except PyExc α) × List Event) : WithOut α :=
  match genLoop acq [0, 1, 2] startIx [] with
  | .raisedGen e ix tr => ⟨.raised e, tr, ix⟩
  | .finishedGen ix tr => ⟨.raised ⟨.runtimeError, "generator didn\x27t yield"⟩, tr, ix⟩
  | .yieldedAt c rest ix tr =>
    match body c with
    | (.ok v, btr) => ⟨.ok v, tr ++ btr ++ [Event.released c], ix⟩
    | (.error e, btr) =>
      let tr2 := tr ++ btr ++ [Event.discarded c]
      if rest.isEmpty then ⟨.raised e, tr2, ix⟩
      else
        match genLoop acq rest ix tr2 with
        | .yieldedAt c2 _ ix2 tr3 =>
          ⟨.raised ⟨.runtimeError, "generator didn\x27t stop after throw()"⟩,
            tr3 ++ [Event.released c2], ix2⟩
        | .raisedGen e2 ix2 tr3 => ⟨.raised e2, tr3, ix2⟩
        | .finishedGen ix2 tr3 => ⟨.suppressed, tr3, ix2⟩

/-- `pre` is a leading run of `text` (over character lists, so that every
definition below evaluates by structural recursion). -/
def strStartsList : List Char → List Char → Bool
  | [], _ => true
  | _ :: _, [] => false
  | p :: ps, t :: ts => p == t && strStartsList ps ts

/-- `pat` occurs somewhere in `text`. -/
def subOccurs (pat : List Char) : List Char → Bool
  | [] => strStartsList pat []
  | t :: ts => strStartsList pat (t :: ts) || subOccurs pat ts

/-- `pat` occurs as a substring of `s` (Python's `pat in s`). -/
def containsSub (s pat : String) : Bool :=
  subOccurs pat.toList s.toList

/-- Python's `str.startswith` over the embedded strings. -/
def pyStartsWith (s pre : String) : Bool :=
  strStartsList pre.toList s.toList

/-- Python's `str.upper()` (the embedded SQL is ASCII). -/
def pyToUpper (s : String) : String :=
  String.mk (s.toList.map Char.toUpper)

/-- Python's `str.lower()` (driver error messages are ASCII). -/
def pyToLower (s : String) : String :=
  String.mk (s.toList.map Char.toLower)

/-- An ASCII whitespace character, as stripped by Python's `str.strip()`. -/
def isSpaceChar (ch : Char) : Bool :=
  ch == ' ' || ch == '\t' || ch == '\n' || ch == '\r'

/-- Python's `str.strip()`: remove leading and trailing whitespace. -/
def pyStrip (s : String) : String :=
  String.mk (((s.toList.dropWhile isSpaceChar).reverse.dropWhile isSpaceChar).reverse)

/-- The retryability test of `execute_query`/`execute_write`
(src/database.py:172-174, 233-235):
`any(msg in str(e).lower() for msg in ['ssl', 'connection', 'closed',
'server closed'])`. -/
def retryableMsg (msg : String) : Bool :=
  let m := pyToLower msg
  containsSub m "ssl" || containsSub m "connection" ||
    containsSub m "closed" || containsSub m "server closed"

/-- The retry loop shared verbatim by `execute_query`
(src/database.py:155-181) and `execute_write` (src/database.py:208-242):
`for attempt in range(max_retries + 1)` around one `with get_connection()`
block per attempt, with
`except (psycopg2.OperationalError, psycopg2.InterfaceError)` retrying
exactly when the message matches `retryableMsg` and attempts remain, and
re-raising the caught exception otherwise.  Exceptions of any other class
propagate uncaught.  If the loop completes without returning or raising
(possible only via the suppression path of the context manager), Python
falls off the end: `raise last_error` when an error was recorded by the
except clause, otherwise the function returns `None` — embedded as
`.ok none`. -/
def execLoop {α : Type} (acq : Nat → AcqOutcome)
    (bodyOf : Nat → Conn → (Except PyExc α) × List Event) :
    List Nat → Nat → Option PyExc → List Event →
    (Except PyExc (Option α)) × List Event
  | [], _, lastError, tr =>
    match lastError with
    | some e => (.error e, tr)
    | none => (.ok none, tr)
  | attempt :: rest, acqIx, lastError, tr =>
    let w := runWith acq acqIx (bodyOf attempt)
    let tr2 := tr ++ w.tr
    match w.res with
    | .ok v => (.ok (some v), tr2)
    | .suppressed => execLoop acq bodyOf rest w.nextIx lastError tr2
    | .raised e =>
      if e.ty = PyExcTy.operationalError ∨ e.ty = PyExcTy.interfaceError then
        if retryableMsg e.msg && !rest.isEmpty then
          execLoop acq bodyOf rest w.nextIx (some e) tr2
        else (.error e, tr2)
      else (.error e, tr2)

/-- The configuration of `src/config.py` (class `Settings`): database
coordinates and credentials, query limits and pool sizing.  Defaults in
the source: `query_timeout = 300`, `max_rows = 10000`, `pool_min = 2`,
`pool_max = 25`, `connect_timeout = 10`, `db_password = None`. -/
structure Settings where
  db_password : Option String
  query_timeout : Nat
  max_rows : Nat
  pool_min : Nat
  pool_max : Nat
  connect_timeout : Nat
deriving DecidableEq

/-- A record produced by the `RealDictCursor`: an ordered mapping from
column name to rendered value. -/
abbrev Row : Type := List (String × String)

/-- Environment of one `execute_query` run: the outcome of each
`getconn` call, and per attempt the outcome of the cursor work
(`SET statement_timeout` followed by `cursor.execute(sql, params)`):
a raised exception, or success with `cursor.description` either absent
(`.ok none`) or present with the statement's full result set
(`.ok (some rows)`). -/
structure QueryEnv where
  acq : Nat → AcqOutcome
  stmt : Nat → Except PyExc (Option (List Row))

/-- The `with`-body of `execute_query` (src/database.py:157-168) for
attempt `i` on connection `c`: on statement success with a result set,
`cursor.fetchmany(settings.max_rows)` returns at most `max_rows` rows;
with no `cursor.description`, the empty list; a raised exception leaves
the body (the inner `finally` only closes the cursor). -/
def queryBody (env : QueryEnv) (settings : Settings) (i : Nat) (c : Conn) :
    (Except PyExc (List Row)) × List Event :=
  match env.stmt i with
  | .error e => (.error e, [Event.stmtFailed c])
  | .ok none => (.ok [], [Event.stmtOk c])
  | .ok (some rows) => (.ok (rows.take settings.max_rows), [Event.stmtOk c])

/-- `execute_query` (src/database.py:133-181): the shared retry loop over
`queryBody`, `for attempt in range(max_retries + 1)` starting from an
empty trace.  The call sites in the tool layer use the default
`max_retries = 2`. -/
def execute_query (env : QueryEnv) (settings : Settings) (maxRetries : Nat) :
    (Except PyExc (Option (List Row))) × List Event :=
  execLoop env.acq (queryBody env settings) (List.range (maxRetries + 1)) 0 none []

/-- Environment of one `execute_write` run: `getconn` outcomes, and per
attempt the outcome of executing the statement — a raised exception, or
success with the driver's reported `cursor.rowcount` (an `Int`, `-1`
meaning unknown). -/
structure WriteEnv where
  acq : Nat → AcqOutcome
  stmt : Nat → Except PyExc Int

/-- The `with`-body of `execute_write` (src/database.py:210-229) for
attempt `i` on connection `c` with autocommit flag `auto`: in autocommit
mode the session is first switched with `conn.set_isolation_level(0)`;
on success `rows_affected = cursor.rowcount if cursor.rowcount >= 0 else
0` (embedded as `Int.toNat`) and, when not in autocommit mode,
`conn.commit()`; on failure, `conn.rollback()` runs before the exception
leaves the body — unless in autocommit mode, where rollback is never
attempted. -/
def writeBody (env : WriteEnv) (auto : Bool) (i : Nat) (c : Conn) :
    (Except PyExc Nat) × List Event :=
  let pre := if auto then [Event.setIso0 c] else []
  match env.stmt i with
  | .error e =>
    (.error e, pre ++ [Event.stmtFailed c] ++ (if auto then [] else [Event.rollback c]))
  | .ok rc =>
    (.ok rc.toNat, pre ++ [Event.stmtOk c] ++ (if auto then [] else [Event.commit c]))

/-- `execute_write` (src/database.py:184-242): the shared retry loop over
`writeBody`. -/
def execute_write (env : WriteEnv) (auto : Bool) (maxRetries : Nat) :
    (Except PyExc (Option Nat)) × List Event :=
  execLoop env.acq (writeBody env auto) (List.range (maxRetries + 1)) 0 none []

/-- The class of the error carried by an `Except`-embedded result, when
it is an error. -/
def errTyOf {α : Type} (r : Except PyExc α) : Option PyExcTy :=
  match r with
  | .ok _ => none
  | .error e => some e.ty

/-- The process-wide `psycopg2.pool.ThreadedConnectionPool` object as the
embedded code observes it: its `closed` flag (set by `closeall`) and the
configuration it was created from.  The module-level state
`_connection_pool` is `Option PPool`, with `none` for uninitialized. -/
structure PPool where
  closed : Bool
  cfg : Settings
deriving DecidableEq

/-- Python falsiness of `settings.db_password` (`None` or the empty
string), as tested by `if not settings.db_password` in `init_pool`. -/
def passwordMissing (s : Settings) : Bool :=
  match s.db_password with
  | none => true
  | some p => p == ""

/-- `init_pool` (src/database.py:19-50) as a transition on the module
state `_connection_pool`: a no-op when the pool already exists; a
`ValueError` (the spec's `ConfigurationError`) leaving the state
uninitialized when the password credential is falsy; otherwise pool
construction, which either raises the driver's connect error
(re-raised by the `except` clause, state unchanged) or installs a fresh
open pool. -/
def init_pool (settings : Settings) (connectErr : Option PyExc)
    (st : Option PPool) : (Except PyExc Unit) × Option PPool :=
  match st with
  | some p => (.ok (), some p)
  | none =>
    if passwordMissing settings then
      (.error ⟨.valueError, "DB_PASSWORD environment variable is required"⟩, none)
    else
      match connectErr with
      | some e => (.error e, none)
      | none => (.ok (), some ⟨false, settings⟩)

/-- `ThreadedConnectionPool.closeall` as implemented by psycopg2: raises
`PoolError("connection pool is closed")` on an already-closed pool,
otherwise closes every connection and marks the pool closed. -/
def closeall (p : PPool) : Except PyExc PPool :=
  if p.closed then .error ⟨.poolError, "connection pool is closed"⟩
  else .ok ⟨true, p.cfg⟩

/-- `close_pool` (src/database.py:53-60) as a transition on
`_connection_pool`: `if _connection_pool: _connection_pool.closeall();
_connection_pool = None`.  With no pool the body is skipped entirely; a
`closeall` failure would propagate before the state is reset. -/
def close_pool (st : Option PPool) : (Except PyExc Unit) × Option PPool :=
  match st with
  | none => (.ok (), none)
  | some p =>
    match closeall p with
    | .error e => (.error e, some p)
    | .ok _ => (.ok (), none)

/-- A JSON value, the shape of every tool entry point's return (the tools
return `json.dumps` of such a value; `default=str` renders row values as
strings, so row values are embedded as strings). -/
inductive JVal
  | null
  | jbool (b : Bool)
  | num (n : Int)
  | jstr (s : String)
  | arr (xs : List JVal)
  | obj (fields : List (String × JVal))

/-- The JSON object every tool returns on a caught exception or a rejected
input: `{"success": false, "error": msg}`. -/
def errObj (msg : String) : JVal :=
  .obj [("success", .jbool false), ("error", .jstr msg)]

/-- Python's `str.rstrip(';')`: remove trailing semicolons. -/
def rstripSemi (s : String) : String :=
  String.mk ((s.toList.reverse.dropWhile (fun ch => ch == ';')).reverse)

/-- `sql.strip().upper()`, computed at the top of the `query` and
`execute` tools. -/
def sqlUpperOf (sql : String) : String :=
  pyToUpper (pyStrip sql)

/-- `min(limit, settings.max_rows)` — the effective row cap of the
`query` tool (src/tools/query.py:42). -/
def effectiveLimit (settings : Settings) (limit : Nat) : Nat :=
  min limit settings.max_rows

/-- The `query` tool appends `LIMIT effective_limit` to the SQL exactly
when the substring `"LIMIT"` does not occur in `sql.strip().upper()`
(src/tools/query.py:45-46). -/
def queryAppendsLimit (sql : String) : Bool :=
  !(containsSub (sqlUpperOf sql) "LIMIT")

/-- The records the `query` tool's success path returns, given the result
set `dbRows` that the database produces for the SQL as written: when a
`LIMIT effective_limit` clause was appended, the database returns at most
`effective_limit` rows of that set; `execute_query` then fetches at most
`settings.max_rows` of them via `cursor.fetchmany` (src/tools/query.py:52
with src/database.py:164). -/
def queryExecutedRows (settings : Settings) (sql : String) (limit : Nat)
    (dbRows : List Row) : List Row :=
  (if queryAppendsLimit sql then dbRows.take (effectiveLimit settings limit)
   else dbRows).take settings.max_rows

/-- `list(results[0].keys()) if results else []` (src/tools/query.py:55). -/
def colsOf (rows : List Row) : List String :=
  match rows with
  | [] => []
  | r :: _ => r.map Prod.fst

/-- A list of records as a JSON array of objects. -/
def rowsJson (rows : List Row) : JVal :=
  .arr (rows.map (fun r => JVal.obj (r.map (fun p => (p.1, JVal.jstr p.2)))))

/-- Environment of one `query`-tool call: the database's result set for
the SQL as written, the exception `execute_query` raises (if any), and
the measured elapsed milliseconds. -/
structure QueryToolEnv where
  dbRows : List Row
  failure : Option PyExc
  ms : Nat

/-- The rejection message of the `query` tool (src/tools/query.py:38). -/
def querySelectOnlyMsg : String :=
  "Only SELECT queries allowed. Use \x27execute\x27 tool for write operations."

/-- The `query` tool (src/tools/query.py:15-70): rejects SQL whose
stripped uppercase form starts with neither `SELECT` nor `WITH`; appends
a `LIMIT` clause when none occurs in the text; runs `execute_query`
inside `try/except Exception`, converting any raised exception `e` into
`{"success": false, "error": str(e)}`; on success returns row count,
column names, data and timing. -/
def query (settings : Settings) (sql : String) (limit : Nat)
    (env : QueryToolEnv) : JVal :=
  let sqlUpper := sqlUpperOf sql
  if !(pyStartsWith sqlUpper "SELECT") && !(pyStartsWith sqlUpper "WITH") then
    errObj querySelectOnlyMsg
  else
    match env.failure with
    | some e => errObj e.msg
    | none =>
      let results := queryExecutedRows settings sql limit env.dbRows
      .obj [("success", .jbool true),
            ("rows", .num results.length),
            ("columns", .arr ((colsOf results).map JVal.jstr)),
            ("data", rowsJson results),
            ("execution_time_ms", .num env.ms)]

/-- The leading keywords the `execute` tool accepts
(src/tools/query.py:94). -/
def allowedOperations : List String :=
  ["INSERT", "UPDATE", "DELETE", "CREATE", "ALTER", "DROP", "TRUNCATE", "GRANT", "REVOKE"]

/-- The rejection message of the `execute` tool (src/tools/query.py:99). -/
def executeOnlyWriteMsg : String :=
  "Only write operations allowed. Use \x27query\x27 tool for SELECT. Allowed: "
    ++ String.intercalate ", " allowedOperations

/-- `"CONCURRENTLY" in sql_upper` — the `execute` tool requests autocommit
mode exactly when the statement contains a concurrent-index-build keyword
(src/tools/query.py:103). -/
def needsAutocommit (sql : String) : Bool :=
  containsSub (sqlUpperOf sql) "CONCURRENTLY"

/-- Environment of one `execute`-tool call: the outcome of
`execute_write` (rows affected, or a raised exception) and elapsed
milliseconds. -/
structure ExecToolEnv where
  outcome : Except PyExc Nat
  ms : Nat

/-- The `execute` tool (src/tools/query.py:73-124): rejects SQL not
starting with an allowed write keyword; otherwise runs `execute_write`
(with autocommit per `needsAutocommit`) inside `try/except Exception`,
converting any raised exception into the error object; on success
reports rows affected, timing and a message. -/
def execute (sql : String) (env : ExecToolEnv) : JVal :=
  let sqlUpper := sqlUpperOf sql
  if !(allowedOperations.any (fun op => pyStartsWith sqlUpper op)) then
    errObj executeOnlyWriteMsg
  else
    match env.outcome with
    | .error e => errObj e.msg
    | .ok n =>
      .obj [("success", .jbool true),
            ("rows_affected", .num n),
            ("execution_time_ms", .num env.ms),
            ("message", .jstr ("Statement executed successfully. "
              ++ toString n ++ " rows affected."))]

/-- The COUNT SQL built by the `count` tool (src/tools/query.py:146-149);
a present but empty `where` string is falsy in Python and takes the
no-WHERE branch. -/
def countSqlFor (table : String) (whereClause : Option String) : String :=
  match whereClause with
  | some w =>
    if w == "" then "SELECT COUNT(*) as count FROM " ++ table
    else "SELECT COUNT(*) as count FROM " ++ table ++ " WHERE " ++ w
  | none => "SELECT COUNT(*) as count FROM " ++ table

/-- Environment of one `count`-tool call: the outcome of `execute_query`
on the built COUNT statement, and elapsed milliseconds. -/
structure CountToolEnv where
  outcome : Except PyExc (List Row)
  ms : Nat

/-- The `count` tool (src/tools/query.py:127-172): the whole body runs
inside `try/except Exception`.  `row_count = results[0]["count"] if
results else 0`; a missing `"count"` key raises `KeyError('count')`,
caught by the same handler.  On success returns the count, the table,
the `where` argument and timing. -/
def count (table : String) (whereClause : Option String)
    (env : CountToolEnv) : JVal :=
  match env.outcome with
  | .error e => errObj e.msg
  | .ok results =>
    match results with
    | [] =>
      .obj [("success", .jbool true), ("table", .jstr table),
            ("count", .num 0),
            ("where", match whereClause with
                      | some w => .jstr w
                      | none => .null),
            ("execution_time_ms", .num env.ms)]
    | r :: _ =>
      match r.lookup "count" with
      | none => errObj "\x27count\x27"
      | some v =>
        .obj [("success", .jbool true), ("table", .jstr table),
              ("count", .jstr v),
              ("where", match whereClause with
                        | some w => .jstr w
                        | none => .null),
              ("execution_time_ms", .num env.ms)]

/-- Environment of one `get_sample` call: the outcome of the
`information_schema.tables` existence query, the content of the sampled
table, and the exception (if any) raised by the sample query. -/
structure SampleToolEnv where
  checkOutcome : Except PyExc (List Row)
  tableRows : List Row
  sampleErr : Option PyExc

/-- The `get_sample` tool (src/tools/sample.py:13-72): the whole body runs
inside `try/except Exception`.  `effective_limit = min(limit, 100)`; an
empty existence-check result yields the not-found error object; otherwise
`SELECT * FROM schema.table LIMIT %s` runs with the effective limit as
parameter (the database returns at most that many rows) through
`execute_query`, whose `fetchmany` caps at `settings.max_rows`. -/
def get_sample (settings : Settings) (table schema : String) (limit : Nat)
    (env : SampleToolEnv) : JVal :=
  let eff := min limit 100
  match env.checkOutcome with
  | .error e => errObj e.msg
  | .ok [] => errObj ("Table " ++ schema ++ "." ++ table ++ " not found")
  | .ok (_ :: _) =>
    match env.sampleErr with
    | some e => errObj e.msg
    | none =>
      let results := (env.tableRows.take eff).take settings.max_rows
      .obj [("success", .jbool true),
            ("table", .jstr table),
            ("schema", .jstr schema),
            ("full_name", .jstr (schema ++ "." ++ table)),
            ("rows_returned", .num results.length),
            ("columns", .arr ((colsOf results).map JVal.jstr)),
            ("data", rowsJson results)]

/-- The event trace carried by a generator-run result. -/
def GenRes.trace : GenRes → List Event
  | .yieldedAt _ _ _ tr => tr
  | .raisedGen _ _ tr => tr
  | .finishedGen _ tr => tr

/-- The two pool-hygiene invariants of a trace: every connection the
generator hands over (`yielded`) passed the validity probe, and every
acquired connection that fails the probe is discarded somewhere in the
trace. -/
def TraceOK (tr : List Event) : Prop :=
  (∀ c, Event.yielded c ∈ tr → is_connection_valid c.probe = true) ∧
  (∀ c, Event.acquired c ∈ tr → is_connection_valid c.probe = false →
    Event.discarded c ∈ tr)

/-- Events the pool machinery itself (the generator loop and the context
manager) can append to a trace: acquisition, discard, release, yield.
Commit, rollback, isolation changes and statement markers come only from
operation bodies. -/
def poolEvent : Event → Bool
  | .acquired _ => true
  | .discarded _ => true
  | .released _ => true
  | .yielded _ => true
  | _ => false

/-- Recognizer for rollback events, used to state that autocommit-mode
writes never roll back. -/
def isRollbackEv : Event → Bool
  | .rollback _ => true
  | _ => false

/-- A `Settings` value with the source defaults of `src/config.py` and a
password present. -/
def settings0 : Settings := ⟨some "pw", 300, 10000, 2, 25, 10⟩

/-- The source defaults with the required `DB_PASSWORD` absent. -/
def settingsNoPw : Settings := ⟨none, 300, 10000, 2, 25, 10⟩

/-- A live (not yet closed) pool created from `settings0`. -/
def pool0 : PPool := ⟨false, settings0⟩

/-- A connection state on which every probe step succeeds. -/
def okProbe : ProbeConn := ⟨false, none, none, none, none⟩

/-- A connection whose underlying session was closed externally
(`conn.closed` is set). -/
def closedProbe : ProbeConn := ⟨true, none, none, none, none⟩

/-- An acquisition stream handing out fresh valid connections. -/
def acqGood : Nat → AcqOutcome := fun n => .conn ⟨n + 1, okProbe⟩

/-- An acquisition stream handing out only externally-closed connections. -/
def acqStale : Nat → AcqOutcome := fun n => .conn ⟨n + 1, closedProbe⟩

/-- An acquisition stream on an exhausted pool: every `getconn` raises
psycopg2's `PoolError`. -/
def acqExhausted : Nat → AcqOutcome :=
  fun _ => .raise ⟨.poolError, "connection pool exhausted"⟩

/-- A stale connection first, then fresh valid connections. -/
def acqStaleThenGood : Nat → AcqOutcome :=
  fun n => match n with
  | 0 => .conn ⟨1, closedProbe⟩
  | _ + 1 => .conn ⟨2, okProbe⟩

/-- A driver message the retry classifier of the source counts as a
transient connection failure. -/
def transientMsg : String := "server closed the connection unexpectedly"

/-- A driver message for a deterministic statement error (bad SQL). -/
def badSqlMsg : String := "syntax error at or near SELEC"

/-- A driver message for a server-side statement-timeout abort
(psycopg2 raises `QueryCanceled`, a subclass of `OperationalError`). -/
def timeoutMsg : String := "canceling statement due to statement timeout"

/-- Forced run for the retry-bound claim: the first statement execution
fails with a transient connection error, every later one would succeed.
-/
def envC3 : QueryEnv :=
  ⟨acqGood, fun i => match i with
    | 0 => .error ⟨.operationalError, transientMsg⟩
    | _ + 1 => .ok (some [[("a", "1")]])⟩

/-- Forced run for the non-transient-error claim: the first statement
execution fails with a syntax error, every later one would succeed. -/
def envC4 : QueryEnv :=
  ⟨acqGood, fun i => match i with
    | 0 => .error ⟨.programmingError, badSqlMsg⟩
    | _ + 1 => .ok (some [[("a", "1")]])⟩

/-- Forced run in which the statement is aborted by the server-side
statement timeout on the first attempt. -/
def envTimeout : QueryEnv :=
  ⟨acqGood, fun i => match i with
    | 0 => .error ⟨.operationalError, timeoutMsg⟩
    | _ + 1 => .ok (some [[("a", "1")]])⟩

/-- Forced run in which every acquired connection is stale, so all three
validation attempts of `get_connection` fail. -/
def envStale : QueryEnv := ⟨acqStale, fun _ => .ok (some [])⟩

/-- Forced run against an exhausted pool. -/
def envPoolEx : QueryEnv := ⟨acqExhausted, fun _ => .ok (some [])⟩

/-- Run acquiring one stale connection before a valid one, statements
succeeding. -/
def envC6 : QueryEnv := ⟨acqStaleThenGood, fun _ => .ok (some [[("a", "1")]])⟩

/-- A deterministic write-statement failure for the rollback claim. -/
def eW : PyExc := ⟨.programmingError, "duplicate key value violates unique constraint"⟩

/-- Write run whose first statement execution fails with `eW`. -/
def envW : WriteEnv :=
  ⟨acqGood, fun i => match i with
    | 0 => .error eW
    | _ + 1 => .ok 3⟩

/-- The connection the write-body claims are instantiated at. -/
def cW : Conn := ⟨1, okProbe⟩

/-- A SELECT that already carries its own LIMIT clause, larger than the
caller-requested limit. -/
def sqlC1 : String := "SELECT a FROM t LIMIT 50"

/-- A SELECT without any LIMIT token. -/
def sqlNoLimit : String := "SELECT a FROM t"

/-- An underlying result set of 50 rows. -/
def dbRowsC1 : List Row := List.replicate 50 [("a", "1")]

/-- Tool environment in which `execute_query` raises. -/
def qEnvFail : QueryToolEnv := ⟨[], some ⟨.operationalError, "boom"⟩, 5⟩

/-- Tool environment in which `execute_write` raises. -/
def eEnvFail : ExecToolEnv := ⟨.error ⟨.programmingError, "boom"⟩, 5⟩

/-- Tool environment in which the COUNT query raises. -/
def cEnvFail : CountToolEnv := ⟨.error ⟨.operationalError, "boom"⟩, 5⟩

/-- Tool environment in which the existence check raises. -/
def sEnvFail : SampleToolEnv := ⟨.error ⟨.operationalError, "boom"⟩, [], none⟩

theorem traceOK_nil : TraceOK [] :=
  ⟨fun _ h => absurd h (List.not_mem_nil _),
   fun _ h _ => absurd h (List.not_mem_nil _)⟩

theorem traceOK_append {t1 t2 : List Event} (h1 : TraceOK t1)
    (h2 : TraceOK t2) : TraceOK (t1 ++ t2) := by
  constructor
  · intro c hc
    rcases List.mem_append.mp hc with h | h
    exacts [h1.1 c h, h2.1 c h]
  · intro c hc hv
    rcases List.mem_append.mp hc with h | h
    · exact List.mem_append.mpr (Or.inl (h1.2 c h hv))
    · exact List.mem_append.mpr (Or.inr (h2.2 c h hv))

theorem traceOK_of_no_ay {tr : List Event}
    (h : ∀ c, Event.yielded c ∉ tr ∧ Event.acquired c ∉ tr) : TraceOK tr :=
  ⟨fun c hc => absurd hc (h c).1, fun c hc _ => absurd hc (h c).2⟩

theorem traceOK_acq_yield {c : Conn} (h : is_connection_valid c.probe = true) :
    TraceOK [Event.acquired c, Event.yielded c] := by
  constructor
  · intro c' hc'
    simp only [List.mem_cons, List.not_mem_nil, or_false] at hc'
    rcases hc' with hc' | hc'
    · exact Event.noConfusion hc'
    · obtain rfl : c' = c := by injection hc'
      exact h
  · intro c' hc' hv
    simp only [List.mem_cons, List.not_mem_nil, or_false] at hc'
    rcases hc' with hc' | hc'
    · obtain rfl : c' = c := by injection hc'
      rw [h] at hv; cases hv
    · exact Event.noConfusion hc'

theorem traceOK_acq_discard {c : Conn} :
    TraceOK [Event.acquired c, Event.discarded c] := by
  constructor
  · intro c' hc'
    simp only [List.mem_cons, List.not_mem_nil, or_false] at hc'
    rcases hc' with hc' | hc'
    · exact Event.noConfusion hc'
    · exact Event.noConfusion hc'
  · intro c' hc' _
    simp only [List.mem_cons, List.not_mem_nil, or_false] at hc'
    rcases hc' with hc' | hc'
    · obtain rfl : c' = c := by injection hc'
      simp
    · exact Event.noConfusion hc'

theorem traceOK_single_released {c : Conn} : TraceOK [Event.released c] := by
  refine traceOK_of_no_ay (fun c' => ⟨?_, ?_⟩) <;>
    · intro h
      simp only [List.mem_cons, List.not_mem_nil, or_false] at h
      exact Event.noConfusion h

theorem traceOK_single_discarded {c : Conn} : TraceOK [Event.discarded c] := by
  constructor
  · intro c' hc'
    simp only [List.mem_cons, List.not_mem_nil, or_false] at hc'
    exact Event.noConfusion hc'
  · intro c' hc' _
    simp only [List.mem_cons, List.not_mem_nil, or_false] at hc'
    exact Event.noConfusion hc'

theorem genLoop_traceOK (acq : Nat → AcqOutcome) :
    ∀ (attempts : List Nat) (ix : Nat) (tr : List Event), TraceOK tr →
      TraceOK (genLoop acq attempts ix tr).trace := by
  intro attempts
  induction attempts with
  | nil => intro ix tr h; simpa [genLoop, GenRes.trace] using h
  | cons a rest ih =>
    intro ix tr h
    simp only [genLoop]
    cases hacq : acq ix with
    | raise e =>
      by_cases hr : rest.isEmpty
      · simpa [hr, GenRes.trace] using h
      · simpa [hr] using ih (ix + 1) tr h
    | conn c =>
      by_cases hv : is_connection_valid c.probe
      · simpa [hv, GenRes.trace] using traceOK_append h (traceOK_acq_yield hv)
      · simpa [hv] using
          ih (ix + 1) _ (traceOK_append h (traceOK_acq_discard))

theorem runWith_traceOK {α : Type} (acq : Nat → AcqOutcome) (startIx : Nat)
    (body : Conn → (Except PyExc α) × List Event)
    (hbody : ∀ c, TraceOK (body c).2) :
    TraceOK (runWith acq startIx body).tr := by
  have hgen : ∀ (ats : List Nat) (ix0 : Nat) (t0 : List Event) (r : GenRes),
      TraceOK t0 → genLoop acq ats ix0 t0 = r → TraceOK r.trace := by
    intro ats ix0 t0 r h0 hr
    have h := genLoop_traceOK acq ats ix0 t0 h0
    rw [hr] at h; exact h
  unfold runWith
  split
  next e ix tr hg => exact hgen _ _ _ _ traceOK_nil hg
  next ix tr hg => exact hgen _ _ _ _ traceOK_nil hg
  next c rest ix tr hg =>
    have htr : TraceOK tr :=
      hgen _ _ _ (GenRes.yieldedAt c rest ix tr) traceOK_nil hg
    split
    next v btr hbc =>
      have hb : TraceOK btr := by
        have h := hbody c; rw [hbc] at h; exact h
      exact traceOK_append (traceOK_append htr hb) traceOK_single_released
    next e btr hbc =>
      have hb : TraceOK btr := by
        have h := hbody c; rw [hbc] at h; exact h
      have htr2 : TraceOK (tr ++ btr ++ [Event.discarded c]) :=
        traceOK_append (traceOK_append htr hb) traceOK_single_discarded
      split
      next hr => exact htr2
      next hr =>
        dsimp only
        split
        next c2 rest2 ix2 tr3 hg2 =>
          exact traceOK_append (hgen _ _ _ _ htr2 hg2) traceOK_single_released
        next e2 ix2 tr3 hg2 => exact hgen _ _ _ _ htr2 hg2
        next ix2 tr3 hg2 => exact hgen _ _ _ _ htr2 hg2

theorem execLoop_traceOK {α : Type} (acq : Nat → AcqOutcome)
    (bodyOf : Nat → Conn → (Except PyExc α) × List Event)
    (hbody : ∀ i c, TraceOK (bodyOf i c).2) :
    ∀ (attempts : List Nat) (acqIx : Nat) (lastError : Option PyExc)
      (tr : List Event), TraceOK tr →
      TraceOK (execLoop acq bodyOf attempts acqIx lastError tr).2 := by
  intro attempts
  induction attempts with
  | nil =>
    intro acqIx lastError tr h
    cases lastError <;> simpa [execLoop] using h
  | cons a rest ih =>
    intro acqIx lastError tr h
    have h2 : TraceOK (tr ++ (runWith acq acqIx (bodyOf a)).tr) :=
      traceOK_append h (runWith_traceOK acq acqIx (bodyOf a) (hbody a))
    simp only [execLoop]
    split
    next v hres => exact h2
    next hres => exact ih _ _ _ h2
    next e hres =>
      split
      · split
        next hrm => exact ih _ _ _ h2
        next hrm => exact h2
      · exact h2

theorem genLoop_absent (q : Event → Bool)
    (hq : ∀ e, poolEvent e = true → q e = false) (acq : Nat → AcqOutcome) :
    ∀ (attempts : List Nat) (ix : Nat) (tr : List Event),
      (∀ e ∈ tr, q e = false) →
      ∀ e ∈ (genLoop acq attempts ix tr).trace, q e = false := by
  intro attempts
  induction attempts with
  | nil => intro ix tr h; simpa [genLoop, GenRes.trace] using h
  | cons a rest ih =>
    intro ix tr h
    simp only [genLoop]
    cases hacq : acq ix with
    | raise e =>
      by_cases hr : rest.isEmpty
      · simpa [hr, GenRes.trace] using h
      · simpa [hr] using ih (ix + 1) tr h
    | conn c =>
      have hext : ∀ (e2 : Event) (es : List Event), poolEvent e2 = true →
          (∀ x ∈ tr, q x = false) → ∀ x ∈ tr ++ [Event.acquired c, e2], q x = false := by
        intro e2 es he2 htr x hx
        rcases List.mem_append.mp hx with hx | hx
        · exact htr x hx
        · simp only [List.mem_cons, List.not_mem_nil, or_false] at hx
          rcases hx with rfl | rfl
          · exact hq _ rfl
          · exact hq _ he2
      by_cases hv : is_connection_valid c.probe
      · simp only [hv, if_true]
        exact hext (Event.yielded c) [] rfl h
      · simp only [hv, Bool.false_eq_true, if_false]
        exact ih (ix + 1) _ (hext (Event.discarded c) [] rfl h)

theorem runWith_absent {α : Type} (q : Event → Bool)
    (hq : ∀ e, poolEvent e = true → q e = false)
    (acq : Nat → AcqOutcome) (startIx : Nat)
    (body : Conn → (Except PyExc α) × List Event)
    (hbody : ∀ c, ∀ e ∈ (body c).2, q e = false) :
    ∀ e ∈ (runWith acq startIx body).tr, q e = false := by
  have hgen : ∀ (ats : List Nat) (ix0 : Nat) (t0 : List Event) (r : GenRes),
      (∀ e ∈ t0, q e = false) → genLoop acq ats ix0 t0 = r →
      ∀ e ∈ r.trace, q e = false := by
    intro ats ix0 t0 r h0 hr
    have h := genLoop_absent q hq acq ats ix0 t0 h0
    rw [hr] at h; exact h
  have hnil : ∀ e ∈ ([] : List Event), q e = false := by
    intro e he; exact absurd he (List.not_mem_nil _)
  have happ : ∀ (t1 t2 : List Event), (∀ e ∈ t1, q e = false) →
      (∀ e ∈ t2, q e = false) → ∀ e ∈ t1 ++ t2, q e = false := by
    intro t1 t2 h1 h2 e he
    rcases List.mem_append.mp he with he | he
    exacts [h1 e he, h2 e he]
  have hone : ∀ (e2 : Event), poolEvent e2 = true →
      ∀ e ∈ [e2], q e = false := by
    intro e2 he2 e he
    simp only [List.mem_cons, List.not_mem_nil, or_false] at he
    subst he; exact hq _ he2
  unfold runWith
  split
  next e ix tr hg => exact hgen _ _ _ _ hnil hg
  next ix tr hg => exact hgen _ _ _ _ hnil hg
  next c rest ix tr hg =>
    have htr := hgen _ _ _ (GenRes.yieldedAt c rest ix tr) hnil hg
    split
    next v btr hbc =>
      have hb : ∀ e ∈ btr, q e = false := by
        have h := hbody c; rw [hbc] at h; exact h
      exact happ _ _ (happ _ _ htr hb) (hone _ rfl)
    next e btr hbc =>
      have hb : ∀ e ∈ btr, q e = false := by
        have h := hbody c; rw [hbc] at h; exact h
      have htr2 := happ _ _ (happ _ _ htr hb) (hone (Event.discarded c) rfl)
      split
      next hr => exact htr2
      next hr =>
        dsimp only
        split
        next c2 rest2 ix2 tr3 hg2 =>
          exact happ _ _ (hgen _ _ _ _ htr2 hg2) (hone _ rfl)
        next e2 ix2 tr3 hg2 => exact hgen _ _ _ _ htr2 hg2
        next ix2 tr3 hg2 => exact hgen _ _ _ _ htr2 hg2

theorem execLoop_absent {α : Type} (q : Event → Bool)
    (hq : ∀ e, poolEvent e = true → q e = false) (acq : Nat → AcqOutcome)
    (bodyOf : Nat → Conn → (Except PyExc α) × List Event)
    (hbody : ∀ i c, ∀ e ∈ (bodyOf i c).2, q e = false) :
    ∀ (attempts : List Nat) (acqIx : Nat) (lastError : Option PyExc)
      (tr : List Event), (∀ e ∈ tr, q e = false) →
      ∀ e ∈ (execLoop acq bodyOf attempts acqIx lastError tr).2, q e = false := by
  intro attempts
  induction attempts with
  | nil =>
    intro acqIx lastError tr h
    cases lastError <;> simpa [execLoop] using h
  | cons a rest ih =>
    intro acqIx lastError tr h
    have h2 : ∀ e ∈ tr ++ (runWith acq acqIx (bodyOf a)).tr, q e = false := by
      intro e he
      rcases List.mem_append.mp he with he | he
      · exact h e he
      · exact runWith_absent q hq acq acqIx (bodyOf a) (hbody a) e he
    simp only [execLoop]
    split
    next v hres => exact h2
    next hres => exact ih _ _ _ h2
    next e hres =>
      split
      · split
        next hrm => exact ih _ _ _ h2
        next hrm => exact h2
      · exact h2

/-- Claim C7: the connection validity probe is total and non-raising —
for every connection state it returns a boolean; a closed session yields
`false`; any exception raised inside the probe body is interpreted as
`false`; and the probe reports `true` only when every probe step
completed. -/
theorem c7_probe_total_and_nonraising (c : ProbeConn) :
    (c.closed = true → is_connection_valid c = false)
    ∧ (∀ e, isConnValidBody c = .error e → is_connection_valid c = false)
    ∧ (is_connection_valid c = true → isConnValidBody c = .ok true) := by
  refine ⟨?_, ?_, ?_⟩
  · intro h
    simp [is_connection_valid, isConnValidBody, h]
  · intro e he
    simp [is_connection_valid, he]
  · intro h
    cases hb : isConnValidBody c with
    | ok b =>
      have hbt : b = true := by simpa [is_connection_valid, hb] using h
      rw [hbt]
    | error e =>
      simp [is_connection_valid, hb] at h

/-- Witness for C7: a handle whose underlying session was forcibly closed
externally is reported invalid, without raising. -/
theorem c7_probe_witness :
    closedProbe.closed = true ∧ is_connection_valid closedProbe = false :=
  ⟨rfl, (c7_probe_total_and_nonraising closedProbe).1 rfl⟩

/-- Claim C8: pool initialization is idempotent — with a pool already
installed it is a no-op returning the very same pool — and with the
password credential absent it fails with the missing-credential
`ValueError` (the spec's `ConfigurationError`) leaving the pool
uninitialized. -/
theorem c8_init_pool_idempotent_and_credential_gate (settings : Settings)
    (connectErr : Option PyExc) (st : Option PPool) (p : PPool) :
    (st = some p → init_pool settings connectErr st = (.ok (), some p))
    ∧ (st = none → passwordMissing settings = true →
        init_pool settings connectErr st
          = (.error ⟨.valueError, "DB_PASSWORD environment variable is required"⟩, none)) := by
  constructor
  · intro h; subst h; rfl
  · intro h hpw; subst h
    simp [init_pool, hpw]

/-- Witness for C8: a second `init_pool` leaves the installed pool
unchanged, and `init_pool` without a password fails with the credential
error and installs nothing. -/
theorem c8_init_pool_witness :
    init_pool settings0 none (some pool0) = (.ok (), some pool0)
    ∧ passwordMissing settingsNoPw = true
    ∧ init_pool settingsNoPw none none
        = (.error ⟨.valueError, "DB_PASSWORD environment variable is required"⟩, none) :=
  ⟨(c8_init_pool_idempotent_and_credential_gate settings0 none (some pool0) pool0).1 rfl,
   by decide,
   (c8_init_pool_idempotent_and_credential_gate settingsNoPw none none pool0).2 rfl (by decide)⟩

/-- Claim C9: pool shutdown is idempotent and safe before initialization:
with no pool installed it is a no-op that does not raise, and on a live
pool it succeeds, resets the state to uninitialized, and a second call is
again a non-raising no-op (sidestepping `closeall`'s
pool-already-closed `PoolError`, which only an installed closed pool
could trigger). -/
theorem c9_close_pool_idempotent (st : Option PPool) (p : PPool) :
    close_pool none = (.ok (), none)
    ∧ (st = some p → p.closed = false →
        close_pool st = (.ok (), none)
        ∧ close_pool (close_pool st).2 = (.ok (), none)) := by
  constructor
  · rfl
  · intro h hp
    subst h
    have h1 : close_pool (some p) = (.ok (), none) := by
      simp [close_pool, closeall, hp]
    refine ⟨h1, ?_⟩
    rw [h1]
    rfl

/-- Witness for C9: shutdown before initialization, shutdown of a live
pool, and a repeated shutdown all return without raising. -/
theorem c9_close_pool_witness :
    close_pool none = (.ok (), none)
    ∧ close_pool (some pool0) = (.ok (), none)
    ∧ close_pool (close_pool (some pool0)).2 = (.ok (), none) :=
  ⟨(c9_close_pool_idempotent none pool0).1,
   ((c9_close_pool_idempotent (some pool0) pool0).2 rfl rfl).1,
   ((c9_close_pool_idempotent (some pool0) pool0).2 rfl rfl).2⟩

/-- Claim C1 (amended): the `query` tool's returned row count never
exceeds the global ceiling `settings.max_rows`, and it is bounded by
`min(limit, settings.max_rows)` whenever the tool appended a LIMIT clause
— that is, whenever the substring `"LIMIT"` does not already occur in the
stripped uppercased SQL.  (As stated, the claim fails when the SQL
already contains a LIMIT token; see the counterexample.) -/
theorem c1_query_row_cap (settings : Settings) (sql : String) (limit : Nat)
    (dbRows : List Row) :
    (queryExecutedRows settings sql limit dbRows).length ≤ settings.max_rows
    ∧ (queryAppendsLimit sql = true →
        (queryExecutedRows settings sql limit dbRows).length
          ≤ min limit settings.max_rows) := by
  constructor
  · unfold queryExecutedRows
    rw [List.length_take]
    exact Nat.min_le_left _ _
  · intro h
    unfold queryExecutedRows
    rw [h, if_pos rfl, List.length_take, List.length_take]
    unfold effectiveLimit
    omega

/-- Witness for C1 (amended): a SELECT without a LIMIT token, requested
limit 10, ceiling 10000, over a 50-row result set returns at most
`min(10, 10000)` rows. -/
theorem c1_query_row_cap_witness :
    queryAppendsLimit sqlNoLimit = true
    ∧ (queryExecutedRows settings0 sqlNoLimit 10 dbRowsC1).length
        ≤ min 10 settings0.max_rows :=
  ⟨by decide, (c1_query_row_cap settings0 sqlNoLimit 10 dbRowsC1).2 (by decide)⟩

/-- Counterexample to C1 as stated: for SQL that already contains a LIMIT
token (`SELECT a FROM t LIMIT 50`) with requested limit 10 and ceiling
10000, the read path returns all 50 rows of the underlying result set —
more than `min(10, 10000)`.  The tool only appends its own
`LIMIT min(L, C)` when `"LIMIT"` does not occur in the SQL text, and
`execute_query`'s `fetchmany` caps at `settings.max_rows` alone. -/
theorem c1_row_cap_counterexample :
    queryAppendsLimit sqlC1 = false
    ∧ (queryExecutedRows settings0 sqlC1 10 dbRowsC1).length = 50
    ∧ ¬ ((queryExecutedRows settings0 sqlC1 10 dbRowsC1).length
          ≤ min 10 settings0.max_rows) :=
  ⟨by decide, by decide, by decide⟩

/-- Claim C2: for a write with `autocommit=false` whose statement raises,
the operation body rolls the transaction back before the exception leaves
the body (so rollback precedes any propagation to the caller); for a
write with `autocommit=true`, the session is switched to immediate-commit
mode before the statement runs and no rollback event ever occurs anywhere
in the run, even when the statement errors. -/
theorem c2_write_rollback_and_autocommit (env : WriteEnv) (i : Nat)
    (c : Conn) (mr : Nat) :
    (∀ e, env.stmt i = .error e →
      writeBody env false i c = (.error e, [Event.stmtFailed c, Event.rollback c]))
    ∧ (∀ c2, Event.rollback c2 ∉ (execute_write env true mr).2)
    ∧ (∀ e, env.stmt i = .error e →
      writeBody env true i c = (.error e, [Event.setIso0 c, Event.stmtFailed c])) := by
  refine ⟨?_, ?_, ?_⟩
  · intro e he
    simp [writeBody, he]
  · intro c2 hmem
    have hq : ∀ e, poolEvent e = true → isRollbackEv e = false := by
      intro e he
      cases e <;> first
        | rfl
        | exact absurd he (by simp [poolEvent])
    have hb : ∀ j cj, ∀ e ∈ (writeBody env true j cj).2, isRollbackEv e = false := by
      intro j cj e he
      cases hstmt : env.stmt j <;>
        simp only [writeBody, hstmt, if_true, List.append_nil, List.cons_append,
          List.nil_append, List.mem_cons, List.not_mem_nil, or_false] at he <;>
        rcases he with rfl | rfl <;> rfl
    have hnil : ∀ e ∈ ([] : List Event), isRollbackEv e = false := by
      intro e he; exact absurd he (List.not_mem_nil _)
    have habs := execLoop_absent isRollbackEv hq env.acq (writeBody env true) hb
      (List.range (mr + 1)) 0 none [] hnil (Event.rollback c2) hmem
    exact absurd habs (by simp [isRollbackEv])
  · intro e he
    simp [writeBody, he]

/-- Witness for C2: at a forced statement failure, the non-autocommit
body rolls back before returning the error; the autocommit run contains
no rollback event; the autocommit body switches the session to
immediate-commit mode first and still performs no rollback on error. -/
theorem c2_write_rollback_witness :
    writeBody envW false 0 cW = (.error eW, [Event.stmtFailed cW, Event.rollback cW])
    ∧ Event.rollback cW ∉ (execute_write envW true 2).2
    ∧ writeBody envW true 0 cW = (.error eW, [Event.setIso0 cW, Event.stmtFailed cW]) :=
  ⟨(c2_write_rollback_and_autocommit envW 0 cW 2).1 eW rfl,
   (c2_write_rollback_and_autocommit envW 0 cW 2).2.1 cW,
   (c2_write_rollback_and_autocommit envW 0 cW 2).2.2 eW rfl⟩

/-- Claim C6: across any `execute_query` run, every connection the
acquisition layer hands over (a `yielded` event) passed the validity
probe at acquisition time, and every acquired connection that fails the
probe is discarded (closed and removed from the pool) somewhere in the
run rather than reused. -/
theorem c6_invalid_never_yielded (env : QueryEnv) (settings : Settings)
    (mr : Nat) (c : Conn) :
    (Event.yielded c ∈ (execute_query env settings mr).2 →
      is_connection_valid c.probe = true)
    ∧ (Event.acquired c ∈ (execute_query env settings mr).2 →
        is_connection_valid c.probe = false →
        Event.discarded c ∈ (execute_query env settings mr).2) := by
  have hbody : ∀ i c2, TraceOK (queryBody env settings i c2).2 := by
    intro i c2
    refine traceOK_of_no_ay ?_
    intro c3
    cases h : env.stmt i with
    | error e =>
      constructor <;> (intro hm; simp [queryBody, h] at hm)
    | ok o =>
      cases o <;> (constructor <;> (intro hm; simp [queryBody, h] at hm))
  have h := execLoop_traceOK env.acq (queryBody env settings) hbody
    (List.range (mr + 1)) 0 none [] traceOK_nil
  exact ⟨fun hm => h.1 c hm, fun hm hv => h.2 c hm hv⟩

/-- Witness for C6: in a run that first acquires a stale connection and
then a valid one, the yielded connection is the valid one and the stale
one was discarded. -/
theorem c6_invalid_never_yielded_witness :
    Event.yielded ⟨2, okProbe⟩ ∈ (execute_query envC6 settings0 2).2
    ∧ is_connection_valid (Conn.mk 2 okProbe).probe = true
    ∧ Event.acquired ⟨1, closedProbe⟩ ∈ (execute_query envC6 settings0 2).2
    ∧ is_connection_valid (Conn.mk 1 closedProbe).probe = false
    ∧ Event.discarded ⟨1, closedProbe⟩ ∈ (execute_query envC6 settings0 2).2 :=
  ⟨by decide,
   (c6_invalid_never_yielded envC6 settings0 2 ⟨2, okProbe⟩).1 (by decide),
   by decide,
   by decide,
   (c6_invalid_never_yielded envC6 settings0 2 ⟨1, closedProbe⟩).2 (by decide) (by decide)⟩

/-- Claim C3 is violated by the code: one transient connection failure
during statement execution (N = 1 ≤ max_retries = 2) followed by
guaranteed success does not make the operation succeed.  The exception
thrown into the `get_connection` generator is handled there, the
generator yields a second connection, and the context-manager protocol
raises `RuntimeError("generator didn't stop after throw()")` — which the
retry loop's `except (OperationalError, InterfaceError)` clause does not
catch, so no retry happens and the caller sees a `RuntimeError` instead
of the transient error or the retried result. -/
theorem c3_transient_failure_not_retried :
    (execute_query envC3 settings0 2).1
      = .error ⟨.runtimeError, "generator didn\x27t stop after throw()"⟩
    ∧ retryableMsg transientMsg = true
    ∧ envC3.stmt 0 = .error ⟨.operationalError, transientMsg⟩
    ∧ envC3.stmt 1 = .ok (some [[("a", "1")]]) :=
  ⟨rfl, by decide, rfl, rfl⟩

/-- Claim C4 is violated by the code: a non-transient statement error
(bad SQL) is indeed never retried, but the connection it ran on is
discarded via `putconn(conn, close=True)` by the generator's exception
handler rather than released with `discard=false`, and the caller
receives `RuntimeError("generator didn't stop after throw()")` instead
of the original exception with its message. -/
theorem c4_query_error_discarded_and_replaced :
    (execute_query envC4 settings0 2).1
      = .error ⟨.runtimeError, "generator didn\x27t stop after throw()"⟩
    ∧ retryableMsg badSqlMsg = false
    ∧ envC4.stmt 0 = .error ⟨.programmingError, badSqlMsg⟩
    ∧ Event.discarded ⟨1, okProbe⟩ ∈ (execute_query envC4 settings0 2).2
    ∧ Event.released ⟨1, okProbe⟩ ∉ (execute_query envC4 settings0 2).2 :=
  ⟨rfl, by decide, rfl, by decide, by decide⟩

/-- Counterexample to C5 as stated: two distinct failure causes from the
claim's list — a statement-timeout abort (the spec's
`StatementTimeoutError`) and exhaustion of the stale-connection
validation attempts (the spec's `StaleConnectionError`) — surface to the
caller as values of the same Python type, `RuntimeError`, so they are not
distinguishable by type. -/
theorem c5_distinct_types_counterexample :
    errTyOf (execute_query envTimeout settings0 2).1 = some PyExcTy.runtimeError
    ∧ errTyOf (execute_query envStale settings0 2).1 = some PyExcTy.runtimeError
    ∧ envTimeout.stmt 0 = .error ⟨.operationalError, timeoutMsg⟩
    ∧ envStale.acq 0 = .conn ⟨1, closedProbe⟩
    ∧ is_connection_valid closedProbe = false :=
  ⟨rfl, rfl, rfl, rfl, by decide⟩

/-- Claim C5 (amended): none of the five exception classes named by the
spec exists in the code; failures surface as the underlying Python
exception types, and those are only partially distinguishable — pool
exhaustion surfaces as psycopg2's `PoolError`, while a statement timeout
and stale-connection exhaustion both surface as `RuntimeError` from the
context-manager protocol. -/
theorem c5_surfaced_error_types :
    errTyOf (execute_query envPoolEx settings0 2).1 = some PyExcTy.poolError
    ∧ errTyOf (execute_query envTimeout settings0 2).1 = some PyExcTy.runtimeError
    ∧ errTyOf (execute_query envStale settings0 2).1 = some PyExcTy.runtimeError
    ∧ PyExcTy.poolError ≠ PyExcTy.runtimeError :=
  ⟨rfl, rfl, rfl, by decide⟩

/-- Claim C10: each tool entry point (`query`, `execute`, `count`,
`get_sample`) always returns a JSON object, and any exception raised by
the underlying execution after the tool's classification check passed is
caught and converted into `{"success": false, "error": str(e)}` rather
than propagated. -/
theorem c10_tools_convert_exceptions (settings : Settings) (sql : String)
    (limit : Nat) (qenv : QueryToolEnv) (eenv : ExecToolEnv) (table : String)
    (whereClause : Option String) (cenv : CountToolEnv) (schema : String)
    (slimit : Nat) (senv : SampleToolEnv) :
    (∀ e, pyStartsWith (sqlUpperOf sql) "SELECT" = true → qenv.failure = some e →
        query settings sql limit qenv = errObj e.msg)
    ∧ (∀ e, allowedOperations.any (fun op => pyStartsWith (sqlUpperOf sql) op) = true →
        eenv.outcome = .error e → execute sql eenv = errObj e.msg)
    ∧ (∀ e, cenv.outcome = .error e → count table whereClause cenv = errObj e.msg)
    ∧ (∀ e, senv.checkOutcome = .error e →
        get_sample settings table schema slimit senv = errObj e.msg)
    ∧ (∀ e r rs, senv.checkOutcome = .ok (r :: rs) → senv.sampleErr = some e →
        get_sample settings table schema slimit senv = errObj e.msg)
    ∧ (∃ fs, query settings sql limit qenv = .obj fs)
    ∧ (∃ fs, execute sql eenv = .obj fs)
    ∧ (∃ fs, count table whereClause cenv = .obj fs)
    ∧ (∃ fs, get_sample settings table schema slimit senv = .obj fs) := by
  refine ⟨?_, ?_, ?_, ?_, ?_, ?_, ?_, ?_, ?_⟩
  · intro e hsel hfail
    simp [query, hsel, hfail]
  · intro e hop hfail
    simp [execute, hop, hfail]
  · intro e hfail
    simp [count, hfail]
  · intro e hchk
    simp [get_sample, hchk]
  · intro e r rs hchk hse
    simp [get_sample, hchk, hse]
  · dsimp only [query]
    split
    · exact ⟨_, rfl⟩
    · split
      · exact ⟨_, rfl⟩
      · exact ⟨_, rfl⟩
  · dsimp only [execute]
    split
    · exact ⟨_, rfl⟩
    · split
      · exact ⟨_, rfl⟩
      · exact ⟨_, rfl⟩
  · dsimp only [count]
    split
    · exact ⟨_, rfl⟩
    · split
      · exact ⟨_, rfl⟩
      · split
        · exact ⟨_, rfl⟩
        · exact ⟨_, rfl⟩
  · dsimp only [get_sample]
    split
    · exact ⟨_, rfl⟩
    · exact ⟨_, rfl⟩
    · split
      · exact ⟨_, rfl⟩
      · exact ⟨_, rfl⟩

/-- Witness for C10: with classification passing and the underlying
execution raising, each of the four tools returns the error JSON object
carrying the exception's message. -/
theorem c10_tools_convert_exceptions_witness :
    query settings0 "SELECT 1" 10 qEnvFail = errObj "boom"
    ∧ execute "DELETE FROM t" eEnvFail = errObj "boom"
    ∧ count "t" none cEnvFail = errObj "boom"
    ∧ get_sample settings0 "t" "public" 5 sEnvFail = errObj "boom" :=
  ⟨(c10_tools_convert_exceptions settings0 "SELECT 1" 10 qEnvFail eEnvFail
      "t" none cEnvFail "public" 5 sEnvFail).1
      ⟨.operationalError, "boom"⟩ (by decide) rfl,
   (c10_tools_convert_exceptions settings0 "DELETE FROM t" 10 qEnvFail eEnvFail
      "t" none cEnvFail "public" 5 sEnvFail).2.1
      ⟨.programmingError, "boom"⟩ (by decide) rfl,
   (c10_tools_convert_exceptions settings0 "SELECT 1" 10 qEnvFail eEnvFail
      "t" none cEnvFail "public" 5 sEnvFail).2.2.1
      ⟨.operationalError, "boom"⟩ rfl,
   (c10_tools_convert_exceptions settings0 "SELECT 1" 10 qEnvFail eEnvFail
      "t" none cEnvFail "public" 5 sEnvFail).2.2.2.1
      ⟨.operationalError, "boom"⟩ rfl⟩
